import Mathlib

set_option maxRecDepth 8192

/-!
Shallow embedding of the WhiteAnalysis token-bounded batching and resilient
execution pipeline: `whiteanalysis/prompts.py` (prompt assembly and the
token-budget batcher), `whiteanalysis/main.py` (retrying orchestrator and run
loop) and `whiteanalysis/html_creation.py` (escaping at the renderer
boundary).

Modelling conventions:
* A Python chat-message dict `{"role": r, "content": c}` is a `Message`.
* The opaque tokenizer capability `len(encodings.encode(s))` is an abstract
  function `tok : String → Nat`; the optional tokenizer of the run loop is an
  `Option (String → Nat)`.
* The completion client `iclient.create` is an abstract oracle
  `call : List Message → Except ε Insights`; raising is `Except.error`.
* Mutation of the module-level `system_prompt` list by `create_prompts` is
  modelled by explicit state passing: the function receives the current value
  of the module-level list and returns the pair (returned prompt, new value of
  the module-level list).
-/

/-- A chat message dictionary `{"role": ..., "content": ...}`. -/
structure Message where
  role : String
  content : String
deriving Repr, DecidableEq

/-- Class `PDFDocument` from `pdf_handling.py`: one extracted page unit. -/
structure PDFDocument where
  filename : String
  page : Int
  text : String
deriving Repr, DecidableEq

/-- Class `Quote` from `prompts.py` (field order as in the class body). -/
structure Quote where
  context : String
  position : String
  text : String
  issue_in_draft : String
  relation : String
deriving Repr, DecidableEq

/-- Class `Insights` from `prompts.py`: the structured result of one completion call. -/
structure Insights where
  general_context : String
  general_relation : String
  quotes : List Quote
deriving Repr, DecidableEq

/-- The module-level instruction template `system_prompt`
(`prompts.py` lines 117-128): a single system message. -/
def system_prompt : List Message :=
  [⟨"system",
    "You are given the draft of an academic paper that\nmakes an argument for using the academic work of the late HC White, our co-author, in a business context.\nYour task is to extract insights to support the existing arguments in the paper.\nYou can also extract insights to offer new perspectives or arguments we might have missed.\nUse the provided tools to do so.\nIf there are no insights, you can leave the fields empty.\n\n"⟩]

/-- The `<DRAFT>` user message appended by `create_batched_prompts`
(line 202) and `create_full_paper_prompts` (line 221). -/
def draftMessage (issue : String) : Message :=
  ⟨"user", "<DRAFT> \n" ++ issue ++ "</DRAFT>\n"⟩

/-- The `<CONTEXT>` system message wrapping a batch accumulator
(`create_batched_prompts`, line 206). -/
def contextMessage (ctx : String) : Message :=
  ⟨"system", "<CONTEXT> \n" ++ ctx ++ "</CONTEXT>\n"⟩

/-- One finished batch prompt of `create_batched_prompts` (lines 200-209):
a deep copy of `system_prompt` with the draft and context messages appended. -/
def mkBatchPrompt (issue ctx : String) : List Message :=
  system_prompt ++ [draftMessage issue, contextMessage ctx]

/-- The scan loop of `create_batched_prompts` (`prompts.py` lines 193-213).
State is the string accumulator `current_context` (initially `""`).  For each
page, if `tok current_context + tok page.text > page_batch_size` the
accumulator is closed (emitted) and the accumulator restarts from the page
text; otherwise the page text is appended to the accumulator.  Returns the
emitted accumulator contents in order, paired with the accumulator left over
when the loop ends — which the Python code never emits. -/
def batch_scan (page_batch_size : Nat) (tok : String → Nat) :
    List PDFDocument → String → List String × String
  | [], current_context => ([], current_context)
  | page :: rest, current_context =>
    if tok current_context + tok page.text > page_batch_size then
      let r := batch_scan page_batch_size tok rest page.text
      (current_context :: r.1, r.2)
    else
      batch_scan page_batch_size tok rest (current_context ++ page.text)

/-- Function `create_batched_prompts` (`prompts.py` lines 187-214).  The loop appends
`mkBatchPrompt issue current_context` to `prompts_list` exactly when the scan
closes the accumulator, so the returned list is the image of the emitted
accumulator contents under `mkBatchPrompt issue`.  Note: after the loop the
Python function returns without flushing the remaining accumulator. -/
def create_batched_prompts (pages : List PDFDocument) (issue : String)
    (page_batch_size : Nat) (tok : String → Nat) : List (List Message) :=
  ((batch_scan page_batch_size tok pages "").1).map (mkBatchPrompt issue)

/-- Function `create_full_paper_prompts` (`prompts.py` lines 217-226): deep copy of the
template, then the draft message, then one `<PAGE>` system message per page.
(The `encodings` argument of the Python function is only used for a debug log
line and has no effect on the result.) -/
def create_full_paper_prompts (pages : List PDFDocument) (issue : String) :
    List Message :=
  (system_prompt ++ [draftMessage issue]) ++
    pages.map (fun page => ⟨"system", "<PAGE> \n" ++ page.text ++ "</PAGE>\n"⟩)

/-- A Python slice `l[-n:]`.  For `n = 0` Python evaluates `l[-0:] = l[0:]`,
i.e. the whole list. -/
def pySliceLast {α : Type} (n : Nat) (l : List α) : List α :=
  if n = 0 then l else l.drop (l.length - n)

/-- Function `return_pages` (`prompts.py` lines 131-138): the focal page (the Python
code indexes `[0]` into the filtered list, raising if it is empty — modelled
with `Option`), the pages before (`[-range:]` slice) and after (`[:range]`). -/
def return_pages (pages : List PDFDocument) (focal_page_number : Int)
    (rng : Nat) : Option PDFDocument × List PDFDocument × List PDFDocument :=
  ((pages.filter (fun p => p.page == focal_page_number)).head?,
   pySliceLast rng (pages.filter (fun p => decide (p.page < focal_page_number))),
   (pages.filter (fun p => decide (focal_page_number < p.page))).take rng)

/-- The `"\n".join(f"Page:{x.page}\n{x.text}")` context strings of
`create_prompts` (lines 152-153; the Python code subscripts the pydantic model
with `x["page"]`, modelled as field access). -/
def joinPageContext (pages : List PDFDocument) : String :=
  String.intercalate "\n"
    (pages.map (fun x => "Page:" ++ toString x.page ++ "\n" ++ x.text))

/-- Function `create_prompts` (`prompts.py` lines 141-177).  Line 151 is
`prompts = system_prompt`: an alias of the module-level template, NOT a copy,
so the four `prompts.append(...)` calls mutate the module-level list.  The
first component of the result is the returned prompt, the second is the new
value of the module-level `system_prompt` list; the two are the same list. -/
def create_prompts (system_prompt_state : List Message)
    (pages : List PDFDocument) (focal_page_number : Int) (rng : Nat)
    (issue : String) : Option (List Message × List Message) :=
  match return_pages pages focal_page_number rng with
  | (none, _, _) => none
  | (some focal_page, pages_before, pages_after) =>
    let context_before := joinPageContext pages_before
    let context_after := joinPageContext pages_after
    let prompts := system_prompt_state ++
      [⟨"system", "<CONTEXT BEFORE FOCAL PAGE> \n" ++ context_before ++
          "</CONTEXT BEFORE FOCAL PAGE>\n"⟩,
       ⟨"system", "<FOCAL PAGE> \n" ++ focal_page.text ++ "</FOCAL PAGE>\n"⟩,
       ⟨"system", "<CONTEXT AFTER FOCAL PAGE> \n" ++ context_after ++
          "</CONTEXT AFTER FOCAL PAGE>\n"⟩,
       ⟨"user", "<ISSUE> \n" ++ issue ++ "\n"⟩]
    some (prompts, prompts)

/-- Backoff `tenacity.wait_exponential(multiplier := 1, exp_base := 2, min := 1,
max := 60)` as configured on `run_full_page` and `run_single_batch`
(`main.py` lines 59-63 and 105-109): the sleep after the `n`-th failed
attempt (attempts counted from 1) is
`max(min, min(multiplier * exp_base ^ (n - 1), max))`. -/
def wait_exponential (multiplier minWait maxWait n : Nat) : Nat :=
  max minWait (min (multiplier * 2 ^ (n - 1)) maxWait)

/-- The `tenacity.retry` driver with `stop_after_attempt(5)` and
`retry_if_exception_type(Exception)` (every error is retried).  `call n` is
the outcome of the `n`-th attempt; `fuel` is the number of retries still
allowed.  Returns the final outcome, the number of attempts made, and the
backoff sleeps performed between attempts, in order. -/
def retryAux {ε α : Type} (call : Nat → Except ε α) :
    Nat → Nat → Except ε α × Nat × List Nat
  | fuel, n =>
    match call n, fuel with
    | .ok a, _ => (.ok a, n, [])
    | .error e, 0 => (.error e, n, [])
    | .error _, fuel + 1 =>
      let r := retryAux call fuel (n + 1)
      (r.1, r.2.1, wait_exponential 1 1 60 n :: r.2.2)

/-- A call wrapped by the decorator of `main.py` lines 59-63 / 105-109:
at most 5 attempts, exponential backoff between them. -/
def run_with_retry {ε α : Type} (call : Nat → Except ε α) :
    Except ε α × Nat × List Nat :=
  retryAux call 4 1

/-- Function `run_full_page` (`main.py` lines 59-102) with the completion client
abstracted as `call`: assemble the full-paper prompt, issue one
`iclient.create` per attempt under the retry decorator, and on success return
the one-element list `[response]`.  The result carries the attempt count and
backoff sleeps of the decorator. -/
def run_full_page {ε : Type} (call : List Message → Except ε Insights)
    (pages : List PDFDocument) (case_text : String) :
    Except ε (List Insights) × Nat × List Nat :=
  let full_page_prompts := create_full_paper_prompts pages case_text
  let r := run_with_retry (fun _ => call full_page_prompts)
  (r.1.map (fun response => [response]), r.2)

/-- Function `run_single_batch` (`main.py` lines 105-136): one `iclient.create` per
attempt on the given prompt, under the same retry decorator. -/
def run_single_batch {ε : Type} (call : List Message → Except ε Insights)
    (prompt : List Message) : Except ε Insights × Nat × List Nat :=
  run_with_retry (fun _ => call prompt)

/-- The `prompt_batch_size = 64000` local of `run_batched_prompts`
(`main.py` line 157): the per-batch token ceiling of the batched path. -/
def prompt_batch_size : Nat := 64000

/-- The literal `64000` of `total_length < 64000` at `main.py` line 233:
the routing threshold below which the run loop takes the full-document path. -/
def full_document_threshold : Nat := 64000

/-- The batch loop of `run_batched_prompts` (`main.py` lines 164-179): run the
batches strictly in order, appending each response; the first terminal failure
of `run_single_batch` is caught by the surrounding `except`, which returns the
responses collected so far.  The second component counts the batches
attempted. -/
def run_batched_loop {ε : Type} (call : List Message → Except ε Insights) :
    List (List Message) → List Insights × Nat
  | [] => ([], 0)
  | batch :: rest =>
    match (run_single_batch call batch).1 with
    | .ok response =>
      let r := run_batched_loop call rest
      (response :: r.1, r.2 + 1)
    | .error _ => ([], 1)

/-- Function `run_batched_prompts` (`main.py` lines 139-179): batch the pages with
ceiling `prompt_batch_size`, then run the batch loop.  Never raises: a
terminal failure yields the partial response list. -/
def run_batched_prompts {ε : Type} (call : List Message → Except ε Insights)
    (pages : List PDFDocument) (case_text : String) (tok : String → Nat) :
    List Insights × Nat :=
  run_batched_loop call (create_batched_prompts pages case_text prompt_batch_size tok)

/-- Line 229 of `main.py`: `total_length = sum(len(encodings.encode(x.text)) for
x in pages)`.  Unlike line 206, this line has no `if encodings else 0` guard:
with `encodings = None` Python raises `AttributeError` as soon as the
generator produces its first element, i.e. whenever `pages` is non-empty. -/
def case_total_length (encodings : Option (String → Nat))
    (pages : List PDFDocument) : Except String Nat :=
  match encodings with
  | some tok => .ok (pages.map (fun x => tok x.text)).sum
  | none =>
    match pages with
    | [] => .ok 0
    | _ :: _ => .error "AttributeError: NoneType has no attribute encode"

/-- The per-case loop of `process_document` (`main.py` lines 225-254), with
extraction and report writing abstracted away.  For each case: recompute the
document token total (line 229), route to the full-document path when it is
below `full_document_threshold` and to the batched path otherwise, and hand
the responses to the renderers.  The first component lists, in order, the
response lists rendered per completed case; the second is `some e` when an
exception `e` escaped to the document-wide handler of line 256, aborting the
remaining cases.  With `encodings = none` and empty `pages`, line 229 yields
0 and the full-document path is taken, but the token-count log line inside
`run_full_page` (line 88) then raises the same `AttributeError`, which the
decorator retries and finally propagates — modelled as the same error
outcome. -/
def process_cases (call : List Message → Except String Insights)
    (encodings : Option (String → Nat)) (pages : List PDFDocument) :
    List String → List (List Insights) × Option String
  | [] => ([], none)
  | case_text :: rest =>
    match case_total_length encodings pages with
    | .error e => ([], some e)
    | .ok total_length =>
      match encodings with
      | none => ([], some "AttributeError: NoneType has no attribute encode")
      | some tok =>
        if total_length < full_document_threshold then
          match (run_full_page call pages case_text).1 with
          | .ok responses =>
            let r := process_cases call encodings pages rest
            (responses :: r.1, r.2)
          | .error e => ([], some e)
        else
          let responses := (run_batched_prompts call pages case_text tok).1
          let r := process_cases call encodings pages rest
          (responses :: r.1, r.2)

/-- CPython `html.escape(s, quote=True)`, applied by
`generate_insights_report` (`html_creation.py` lines 104-133) to every
interpolated field.  The stdlib function performs the five `str.replace`
calls `& → &amp;` first, then `< → &lt;`, `> → &gt;`, `" → &quot;`,
`chr(39) → &#x27;`; since the first replacement handles every ampersand
before any entity text is introduced, the net effect is this character-wise
substitution. -/
def escapeChar : Char → List Char
  | '&' => ['&', 'a', 'm', 'p', ';']
  | '<' => ['&', 'l', 't', ';']
  | '>' => ['&', 'g', 't', ';']
  | '"' => ['&', 'q', 'u', 'o', 't', ';']
  | '\'' => ['&', '#', 'x', '2', '7', ';']
  | c => [c]

/-- Stdlib `html.escape` on a whole string. -/
def html_escape (s : String) : String := ⟨s.data.flatMap escapeChar⟩

/-- Re-parsing of the rendered text: CPython `html.unescape` restricted to
the five entities that `html.escape` emits (a leading `&` that starts no
recognised entity is kept verbatim, as `html.unescape` does). -/
def unescapeChars : List Char → List Char
  | '&' :: 'a' :: 'm' :: 'p' :: ';' :: rest => '&' :: unescapeChars rest
  | '&' :: 'l' :: 't' :: ';' :: rest => '<' :: unescapeChars rest
  | '&' :: 'g' :: 't' :: ';' :: rest => '>' :: unescapeChars rest
  | '&' :: 'q' :: 'u' :: 'o' :: 't' :: ';' :: rest => '"' :: unescapeChars rest
  | '&' :: '#' :: 'x' :: '2' :: '7' :: ';' :: rest => '\'' :: unescapeChars rest
  | c :: rest => c :: unescapeChars rest
  | [] => []

/-- Stdlib `html.unescape` on a whole string. -/
def html_unescape (s : String) : String := ⟨unescapeChars s.data⟩

/-- The quote box emitted per quote by `generate_insights_report`
(`html_creation.py` lines 126-136), whitespace elided: every field is
interpolated through `html.escape`. -/
def quote_box_html (q : Quote) : String :=
  "<div class=\"quote-box\"><p><strong>" ++ html_escape q.text ++
  "</strong> </p><div class=\"quote-context\">" ++ html_escape q.context ++
  "</div><div class=\"quote-position\"><strong>Position:</strong> " ++
  html_escape q.position ++
  "</div><div class=\"quote-issue_in_draft\"><strong>Issue in Draft:</strong> " ++
  html_escape q.issue_in_draft ++
  "</div><div class=\"quote-relation\"><strong>Relevance:</strong> " ++
  html_escape q.relation ++ "</div></div>"

/-! ### Fixtures used by witnesses and counterexamples -/

/-- Two small pages used by several witnesses. -/
def demo_pages : List PDFDocument := [⟨"f", 0, "ab"⟩, ⟨"f", 1, "cd"⟩]

/-- A single page whose one-character text fits any positive ceiling. -/
def single_small_page : List PDFDocument := [⟨"f", 0, "a"⟩]

/-- Pages whose first text already exceeds a ceiling of 3 characters. -/
def oversized_pages : List PDFDocument := [⟨"f", 0, "abcd"⟩, ⟨"f", 1, "ef"⟩]

/-! ### The token-budget batcher (claims C1, C2, C9) -/

/-- Invariant of the scan: every emitted accumulator either fits the ceiling
or is the text of a single page of `allPages` that alone exceeds it, provided
the tokenizer is subadditive and the starting accumulator already satisfies
the invariant. -/
theorem batch_scan_mem_bound (C : Nat) (tok : String → Nat)
    (hsub : ∀ a b : String, tok (a ++ b) ≤ tok a + tok b)
    (allPages : List PDFDocument) :
    ∀ (l : List PDFDocument) (curr : String),
      (∀ p ∈ l, p ∈ allPages) →
      (tok curr ≤ C ∨ (curr ∈ allPages.map PDFDocument.text ∧ C < tok curr)) →
      ∀ ctx ∈ (batch_scan C tok l curr).1,
        tok ctx ≤ C ∨ (ctx ∈ allPages.map PDFDocument.text ∧ C < tok ctx) := by
  intro l
  induction l with
  | nil =>
    intro curr _ _ ctx hctx
    simp [batch_scan] at hctx
  | cons page rest ih =>
    intro curr hsubset hcurr ctx hctx
    have hmem : page ∈ allPages := hsubset page (List.mem_cons_self page rest)
    have hrest : ∀ p ∈ rest, p ∈ allPages :=
      fun p hp => hsubset p (List.mem_cons_of_mem page hp)
    simp only [batch_scan] at hctx
    split at hctx
    · rcases List.mem_cons.mp hctx with hceq | htail
      · subst hceq
        exact hcurr
      · refine ih page.text hrest ?_ ctx htail
        by_cases hfit : tok page.text ≤ C
        · exact Or.inl hfit
        · exact Or.inr ⟨List.mem_map_of_mem PDFDocument.text hmem,
            lt_of_not_ge hfit⟩
    · rename_i hle
      refine ih (curr ++ page.text) hrest ?_ ctx hctx
      have hsum : tok curr + tok page.text ≤ C := le_of_not_lt hle
      exact Or.inl (le_trans (hsub curr page.text) hsum)

/-- C2: every batch emitted by `create_batched_prompts` with ceiling `C` is
`mkBatchPrompt issue ctx` for an emitted accumulator `ctx`, and each such
accumulator has token count at most `C` except when it is the text of a
single input page whose own token count exceeds `C` (the oversized singleton
batch).  The tokenizer is assumed subadditive with `tok "" = 0`, as token
counters are. -/
theorem batched_prompts_token_bound (pages : List PDFDocument) (issue : String)
    (C : Nat) (tok : String → Nat)
    (hsub : ∀ a b : String, tok (a ++ b) ≤ tok a + tok b)
    (hempty : tok "" = 0) :
    create_batched_prompts pages issue C tok =
      ((batch_scan C tok pages "").1).map (mkBatchPrompt issue) ∧
    ∀ ctx ∈ (batch_scan C tok pages "").1,
      tok ctx ≤ C ∨ (ctx ∈ pages.map PDFDocument.text ∧ C < tok ctx) := by
  refine ⟨rfl, ?_⟩
  exact batch_scan_mem_bound C tok hsub pages pages ""
    (fun p hp => hp) (Or.inl (by simp [hempty]))

/-- Witness for C2: the batch context `"ab"` emitted on `demo_pages` with
ceiling 3 and a character-count tokenizer satisfies the bound. -/
theorem batched_prompts_token_bound_witness :
    String.length "ab" ≤ 3 ∨
      ("ab" ∈ demo_pages.map PDFDocument.text ∧ 3 < String.length "ab") :=
  (batched_prompts_token_bound demo_pages "i" 3 String.length
    (fun a b => le_of_eq (String.length_append a b)) rfl).2 "ab" (by decide)

/-- C1: evaluation of the batcher at a failing input.  On a single page of
text `"a"` (1 token) with ceiling 10, `create_batched_prompts` returns NO
batches at all: the loop leaves the page text in the accumulator and the
function returns without emitting it, so the input text is dropped instead of
being partitioned across the batches. -/
theorem final_accumulator_never_emitted :
    create_batched_prompts single_small_page "i" 10 String.length = [] ∧
    (batch_scan 10 String.length single_small_page "").2 = "a" :=
  ⟨rfl, rfl⟩

/-- C9 counterexample: with ceiling 3, a character-count tokenizer, and a
first page of text `"abcd"` (4 tokens, exceeding the ceiling), the very first
loop iteration closes the still-empty accumulator, so `create_batched_prompts`
emits a batch whose context content is the empty string. -/
theorem empty_context_batch_emitted :
    mkBatchPrompt "i" "" ∈ create_batched_prompts oversized_pages "i" 3 String.length :=
  List.mem_cons_self _ _

/-- Strings agreeing after the same prefix and suffix are equal. -/
theorem string_sandwich_inj (a x y b : String)
    (h : a ++ x ++ b = a ++ y ++ b) : x = y := by
  obtain ⟨la⟩ := a
  obtain ⟨lx⟩ := x
  obtain ⟨ly⟩ := y
  obtain ⟨lb⟩ := b
  have hd : la ++ lx ++ lb = la ++ ly ++ lb := congrArg String.data h
  have hd2 : lx ++ lb = ly ++ lb := by
    rw [List.append_assoc, List.append_assoc] at hd
    exact List.append_cancel_left hd
  have hx : lx = ly := List.append_cancel_right hd2
  rw [hx]

/-- The map `mkBatchPrompt issue` is injective in the context string. -/
theorem mkBatchPrompt_ctx_inj (issue c1 c2 : String)
    (h : mkBatchPrompt issue c1 = mkBatchPrompt issue c2) : c1 = c2 := by
  have h0 : system_prompt ++ [draftMessage issue, contextMessage c1] =
      system_prompt ++ [draftMessage issue, contextMessage c2] := h
  have h2 : contextMessage c1 = contextMessage c2 := by
    simpa using List.append_cancel_left h0
  have h3 : "<CONTEXT> \n" ++ c1 ++ "</CONTEXT>\n" =
      "<CONTEXT> \n" ++ c2 ++ "</CONTEXT>\n" := congrArg Message.content h2
  exact string_sandwich_inj _ _ _ _ h3

/-- Emitted accumulators are non-empty if the starting accumulator is
non-empty and every page text is non-empty. -/
theorem batch_scan_ne_empty (C : Nat) (tok : String → Nat) :
    ∀ (l : List PDFDocument) (curr : String),
      curr ≠ "" → (∀ p ∈ l, p.text ≠ "") →
      ∀ ctx ∈ (batch_scan C tok l curr).1, ctx ≠ "" := by
  intro l
  induction l with
  | nil =>
    intro curr _ _ ctx hctx
    simp [batch_scan] at hctx
  | cons page rest ih =>
    intro curr hcurr hne ctx hctx
    have hpage : page.text ≠ "" := hne page (List.mem_cons_self page rest)
    have hrest : ∀ p ∈ rest, p.text ≠ "" :=
      fun p hp => hne p (List.mem_cons_of_mem page hp)
    simp only [batch_scan] at hctx
    split at hctx
    · rcases List.mem_cons.mp hctx with hceq | htail
      · exact hceq ▸ hcurr
      · exact ih page.text hpage hrest ctx htail
    · refine ih (curr ++ page.text) ?_ hrest ctx hctx
      intro habs
      have hlen : curr.length + page.text.length = 0 := by
        have := congrArg String.length habs
        simpa [String.length_append] using this
      have hz : page.text.length = 0 := by omega
      have hz2 : page.text.data.length = 0 := hz
      have hnil : page.text.data = [] := List.length_eq_zero.mp hz2
      exact hpage (congrArg String.mk hnil)

/-- C9 amended: a batch with empty context content IS emitted exactly in the
flagged edge case — the batcher closes the empty initial accumulator when the
first page alone overflows the ceiling (see `empty_context_batch_emitted`).
Conversely, when every page text is non-empty and the first page fits within
the ceiling on its own (and `tok "" = 0`), no emitted batch has empty context
content. -/
theorem batched_prompts_no_empty_context (pages : List PDFDocument)
    (issue : String) (C : Nat) (tok : String → Nat)
    (hempty : tok "" = 0)
    (hne : ∀ p ∈ pages, p.text ≠ "")
    (hfirst : ∀ p0 ∈ pages.head?, tok p0.text ≤ C) :
    mkBatchPrompt issue "" ∉ create_batched_prompts pages issue C tok := by
  intro hmem
  obtain ⟨ctx, hctx, heq⟩ := List.mem_map.mp hmem
  have hctxe : ctx = "" := mkBatchPrompt_ctx_inj issue ctx "" heq
  subst hctxe
  cases pages with
  | nil => simp [batch_scan] at hctx
  | cons p0 rest =>
    have hfit : tok "" + tok p0.text ≤ C := by
      rw [hempty]
      simpa using hfirst p0 (by simp)
    have hnogt : ¬ (tok "" + tok p0.text > C) := not_lt.mpr hfit
    simp only [batch_scan, if_neg hnogt] at hctx
    have hp0 : p0.text ≠ "" := hne p0 (List.mem_cons_self p0 rest)
    have hrest : ∀ p ∈ rest, p.text ≠ "" :=
      fun p hp => hne p (List.mem_cons_of_mem p0 hp)
    have hcurr : "" ++ p0.text ≠ "" := by
      intro habs
      exact hp0 (by simpa using habs)
    exact batch_scan_ne_empty C tok rest ("" ++ p0.text) hcurr hrest "" hctx rfl

/-- Witness for C9 amended: on `demo_pages` (non-empty texts, first page
fits a ceiling of 3 characters), no empty-context batch is emitted. -/
theorem batched_prompts_no_empty_context_witness :
    mkBatchPrompt "i" "" ∉ create_batched_prompts demo_pages "i" 3 String.length :=
  batched_prompts_no_empty_context demo_pages "i" 3 String.length rfl
    (by decide)
    (by
      intro p0 hp0
      have h2 : some (⟨"f", 0, "ab"⟩ : PDFDocument) = some p0 := hp0
      cases Option.some.inj h2
      decide)

/-! ### Prompt-assembly frame effects (claim C4) -/

/-- A one-page document used to drive `create_prompts`. -/
def demo_focal_pages : List PDFDocument := [⟨"f", 0, "t"⟩]

/-- The value of the module-level `system_prompt` after one `create_prompts`
call (focal page 0, range 1, issue `"i"`), starting from the pristine
template.  Because line 151 aliases instead of copying, the call returns the
very list it appended to. -/
def template_after_first_call : List Message :=
  match create_prompts system_prompt demo_focal_pages 0 1 "i" with
  | some r => r.2
  | none => []

/-- The prompt returned by a second, identical `create_prompts` call, which
starts from the module-level template as the first call left it. -/
def prompt_of_second_call : List Message :=
  match create_prompts template_after_first_call demo_focal_pages 0 1 "i" with
  | some r => r.1
  | none => []

/-- Number of blocks of a given role in a prompt. -/
def count_role (role : String) (prompt : List Message) : Nat :=
  (prompt.filter (fun m => m.role == role)).length

/-- C4: evaluation at a failing input.  `create_prompts` appends to the
module-level `system_prompt` in place (no copy), so the first invocation
already changes the shared template (from 1 block to 5), and the second
invocation returns a 9-block prompt carrying two `<ISSUE>` task blocks —
blocks accumulated from the earlier invocation, where the claim requires
exactly one task block and an unchanged template.  (`create_batched_prompts`
and `create_full_paper_prompts` do start from `deepcopy(system_prompt)`.) -/
theorem create_prompts_mutates_shared_template :
    template_after_first_call ≠ system_prompt ∧
    template_after_first_call.length = 5 ∧
    prompt_of_second_call.length = 9 ∧
    count_role "user" prompt_of_second_call = 2 := by
  refine ⟨?_, rfl, rfl, rfl⟩
  decide

/-! ### Routing thresholds (claim C6) -/

/-- C6 counterexample: the full-document routing threshold (`main.py` line
233) is NOT strictly larger than the per-batch ceiling (`main.py` line 157),
let alone an order of magnitude larger — the two literals are equal. -/
theorem routing_threshold_not_larger :
    full_document_threshold = prompt_batch_size ∧
    ¬ prompt_batch_size < full_document_threshold ∧
    ¬ 10 * prompt_batch_size ≤ full_document_threshold := by
  refine ⟨rfl, ?_, ?_⟩ <;> decide

/-- C6 amended: the run loop routes to the full-document path exactly when
the document total is below 64000, the same value as the per-batch token
ceiling of the batched path. -/
theorem routing_threshold_equals_ceiling :
    full_document_threshold = 64000 ∧ prompt_batch_size = 64000 :=
  ⟨rfl, rfl⟩

/-! ### Tokenizer unavailability (claim C5) -/

/-- A completion oracle that is never reached in the C5 scenario. -/
def demo_unused_call : List Message → Except String Insights :=
  fun _ => .error "unused"

/-- C5: evaluation at a failing input.  With `encodings = None` and a
non-empty page list, the per-case recomputation of `total_length`
(`main.py` line 229, which lacks the `if encodings else 0` guard of line
206) raises `AttributeError`; the document-wide handler catches it, so NO
case is processed and nothing is rendered — the pipeline does not degrade to
the full-document path as the claim states. -/
theorem tokenizer_unavailable_aborts_document :
    process_cases demo_unused_call none demo_pages ["case one", "case two"] =
      ([], some "AttributeError: NoneType has no attribute encode") := rfl

/-! ### Retry/backoff semantics (claims C3, C7, C8) -/

/-- A call that always fails under the retry wrapper: 5 attempts, then the
error propagates, having slept the four backoff intervals. -/
theorem run_with_retry_const_error {ε α : Type} (e : ε) :
    run_with_retry (fun _ => (Except.error e : Except ε α)) =
      (.error e, 5, [1, 2, 4, 8]) := rfl

/-- A call that immediately succeeds under the retry wrapper: one attempt,
no backoff sleeps. -/
theorem run_with_retry_const_ok {ε α : Type} (a : α) :
    run_with_retry (fun _ => (Except.ok a : Except ε α)) =
      (.ok a, 1, []) := rfl

/-- C3: if the underlying service call fails on every attempt, both
`run_full_page` and `run_single_batch` attempt it exactly 5 times (tenacity
`stop_after_attempt(5)`), sleeping the `wait_exponential`(multiplier 1,
min 1, max 60) intervals 1, 2, 4, 8 between attempts — strictly increasing
and below the 60-unit cap — and then propagate the terminal failure. -/
theorem retry_five_attempts_then_fail {ε : Type}
    (svc : List Message → Except ε Insights)
    (pages : List PDFDocument) (case_text : String) (prompt : List Message)
    (e : ε) (hfail : ∀ p, svc p = .error e) :
    run_full_page svc pages case_text = (.error e, 5, [1, 2, 4, 8]) ∧
    run_single_batch svc prompt = (.error e, 5, [1, 2, 4, 8]) ∧
    [1, 2, 4, 8] = [wait_exponential 1 1 60 1, wait_exponential 1 1 60 2,
      wait_exponential 1 1 60 3, wait_exponential 1 1 60 4] ∧
    List.Chain' (· < ·) [1, 2, 4, 8] := by
  have hfun1 : (fun _ : Nat => svc (create_full_paper_prompts pages case_text)) =
      (fun _ => .error e) := funext (fun _ => hfail _)
  have hfun2 : (fun _ : Nat => svc prompt) = (fun _ => .error e) :=
    funext (fun _ => hfail _)
  refine ⟨?_, ?_, by decide, by simp [List.chain'_cons]⟩
  · show ((run_with_retry (fun _ => svc (create_full_paper_prompts pages case_text))).1.map
        (fun response => [response]),
      (run_with_retry (fun _ => svc (create_full_paper_prompts pages case_text))).2) =
      (.error e, 5, [1, 2, 4, 8])
    rw [hfun1, run_with_retry_const_error]
    rfl
  · show run_with_retry (fun _ => svc prompt) = (.error e, 5, [1, 2, 4, 8])
    rw [hfun2, run_with_retry_const_error]

/-- A service call that always fails. -/
def demo_fail_call : List Message → Except String Insights :=
  fun _ => .error "boom"

/-- Witness for C3 with an always-failing service call. -/
theorem retry_five_attempts_then_fail_witness :
    run_full_page demo_fail_call demo_pages "c" = (.error "boom", 5, [1, 2, 4, 8]) ∧
    run_single_batch demo_fail_call [] = (.error "boom", 5, [1, 2, 4, 8]) ∧
    [1, 2, 4, 8] = [wait_exponential 1 1 60 1, wait_exponential 1 1 60 2,
      wait_exponential 1 1 60 3, wait_exponential 1 1 60 4] ∧
    List.Chain' (· < ·) [1, 2, 4, 8] :=
  retry_five_attempts_then_fail demo_fail_call demo_pages "c" [] "boom"
    (fun _ => rfl)

/-- An insight value returned by succeeding demo calls. -/
def demo_insights : Insights := ⟨"gc", "gr", []⟩

/-- A service call that always succeeds with `demo_insights`. -/
def demo_ok_call : List Message → Except String Insights :=
  fun _ => .ok demo_insights

/-- C7: for a (document, case) pair whose total token count is below the
full-document threshold and whose completion call succeeds, the run loop
takes the full-document path, `run_full_page` issues exactly one
completion-service call, and the case yields the one-element result list
`[r]`, which is handed to the renderers. -/
theorem small_document_single_call
    (call : List Message → Except String Insights) (tok : String → Nat)
    (pages : List PDFDocument) (case_text : String) (r : Insights)
    (hsmall : (pages.map (fun x => tok x.text)).sum < full_document_threshold)
    (hok : call (create_full_paper_prompts pages case_text) = .ok r) :
    process_cases call (some tok) pages [case_text] = ([[r]], none) ∧
    (run_full_page call pages case_text).2.1 = 1 := by
  have hfun : (fun _ : Nat => call (create_full_paper_prompts pages case_text)) =
      (fun _ => .ok r) := funext (fun _ => hok)
  have hfp : run_full_page call pages case_text = (.ok [r], 1, []) := by
    show ((run_with_retry (fun _ => call (create_full_paper_prompts pages case_text))).1.map
        (fun response => [response]),
      (run_with_retry (fun _ => call (create_full_paper_prompts pages case_text))).2) =
      (.ok [r], 1, [])
    rw [hfun, run_with_retry_const_ok]
    rfl
  constructor
  · show (match case_total_length (some tok) pages with
      | .error e => ([], some e)
      | .ok total_length =>
        if total_length < full_document_threshold then
          match (run_full_page call pages case_text).1 with
          | .ok responses =>
            let rr := process_cases call (some tok) pages []
            (responses :: rr.1, rr.2)
          | .error e => ([], some e)
        else
          let responses := (run_batched_prompts call pages case_text tok).1
          let rr := process_cases call (some tok) pages []
          (responses :: rr.1, rr.2)) = ([[r]], none)
    simp only [case_total_length, if_pos hsmall, hfp, process_cases]
  · rw [hfp]

/-- Witness for C7: `demo_pages` (4 characters total, below the 64000
threshold) with a succeeding call yields one call and a one-element list. -/
theorem small_document_single_call_witness :
    process_cases demo_ok_call (some String.length) demo_pages ["c"] =
      ([[demo_insights]], none) ∧
    (run_full_page demo_ok_call demo_pages "c").2.1 = 1 :=
  small_document_single_call demo_ok_call String.length demo_pages "c"
    demo_insights (by decide) rfl

/-- Function `run_single_batch` returns exactly the outcome of the (deterministic)
underlying call: an immediate success, or the same error after the retry
budget is exhausted. -/
theorem run_single_batch_fst {ε : Type}
    (call : List Message → Except ε Insights) (batch : List Message) :
    (run_single_batch call batch).1 = call batch := by
  cases h : call batch with
  | ok a =>
    have hfun : (fun _ : Nat => call batch) = (fun _ => .ok a) :=
      funext (fun _ => h)
    show (run_with_retry (fun _ => call batch)).1 = Except.ok a
    rw [hfun, run_with_retry_const_ok]
  | error e =>
    have hfun : (fun _ : Nat => call batch) = (fun _ => .error e) :=
      funext (fun _ => h)
    show (run_with_retry (fun _ => call batch)).1 = Except.error e
    rw [hfun, run_with_retry_const_error]

/-- The batch loop on `pre ++ bk :: post`, when every batch of `pre`
succeeds and `bk` terminally fails: the loop returns exactly the responses
collected over `pre` (one per batch) and attempts `pre.length + 1` batches,
never reaching `post`. -/
theorem run_batched_loop_stops {ε : Type}
    (call : List Message → Except ε Insights)
    (bk : List Message) (post : List (List Message)) (e : ε)
    (hk : call bk = .error e) :
    ∀ pre : List (List Message), (∀ b ∈ pre, ∃ r, call b = .ok r) →
      run_batched_loop call (pre ++ bk :: post) =
        ((run_batched_loop call pre).1, pre.length + 1) ∧
      (run_batched_loop call pre).1.length = pre.length := by
  intro pre
  induction pre with
  | nil =>
    intro _
    constructor
    · show run_batched_loop call (bk :: post) = ([], 0 + 1)
      simp only [run_batched_loop, run_single_batch_fst, hk]
    · rfl
  | cons b pre ih =>
    intro hpre
    obtain ⟨r, hr⟩ := hpre b (List.mem_cons_self b pre)
    have hrest : ∀ b2 ∈ pre, ∃ r2, call b2 = .ok r2 :=
      fun b2 hb2 => hpre b2 (List.mem_cons_of_mem b hb2)
    obtain ⟨ih1, ih2⟩ := ih hrest
    constructor
    · show (match (run_single_batch call b).1 with
        | .ok response =>
          let rr := run_batched_loop call (pre ++ bk :: post)
          (response :: rr.1, rr.2 + 1)
        | .error _ => ([], 1)) =
        ((run_batched_loop call (b :: pre)).1, (b :: pre).length + 1)
      rw [run_single_batch_fst, hr, ih1]
      show (r :: (run_batched_loop call pre).1, pre.length + 1 + 1) = _
      have hcons : (run_batched_loop call (b :: pre)).1 =
          r :: (run_batched_loop call pre).1 := by
        show (match (run_single_batch call b).1 with
          | .ok response =>
            let rr := run_batched_loop call pre
            (response :: rr.1, rr.2 + 1)
          | .error _ => ([], 1)).1 = _
        rw [run_single_batch_fst, hr]
      rw [hcons]
      rfl
    · have hcons : (run_batched_loop call (b :: pre)).1 =
          r :: (run_batched_loop call pre).1 := by
        show (match (run_single_batch call b).1 with
          | .ok response =>
            let rr := run_batched_loop call pre
            (response :: rr.1, rr.2 + 1)
          | .error _ => ([], 1)).1 = _
        rw [run_single_batch_fst, hr]
      rw [hcons]
      simp [ih2]

/-- C8: when the batches of a case are `pre ++ bk :: post` and the
orchestrator terminally fails on `bk` after its retries, while every batch
of `pre` succeeds, `run_batched_prompts` attempts exactly the batches up to
and including `bk`, does not raise, and returns exactly the insights
collected for the batches before `bk` (one per batch) — partial results. -/
theorem batched_failure_partial_results
    (call : List Message → Except String Insights)
    (pages : List PDFDocument) (case_text : String) (tok : String → Nat)
    (pre : List (List Message)) (bk : List Message)
    (post : List (List Message)) (e : String)
    (hb : create_batched_prompts pages case_text prompt_batch_size tok =
      pre ++ bk :: post)
    (hpre : ∀ b ∈ pre, ∃ r, call b = .ok r)
    (hk : call bk = .error e) :
    run_batched_prompts call pages case_text tok =
      ((run_batched_loop call pre).1, pre.length + 1) ∧
    (run_batched_loop call pre).1.length = pre.length := by
  have h := run_batched_loop_stops call bk post e hk pre hpre
  show run_batched_loop call
      (create_batched_prompts pages case_text prompt_batch_size tok) =
      ((run_batched_loop call pre).1, pre.length + 1) ∧ _
  rw [hb]
  exact h

/-- A tokenizer that makes each demo page exceed the 64000-token ceiling,
forcing the batched path to emit several batches. -/
def tok40k : String → Nat := fun s => s.length * 40000

/-- A service call that terminally fails exactly on the second batch emitted
for `demo_pages` under `tok40k`. -/
def demo_batch_call : List Message → Except String Insights :=
  fun b => if b = mkBatchPrompt "c" "ab" then .error "boom" else .ok demo_insights

/-- Witness for C8: on `demo_pages` with `tok40k` the batcher emits the
batches `[mkBatchPrompt "c" "", mkBatchPrompt "c" "ab"]`; the call fails on
the second, so exactly 2 batches are attempted and the single insight
collected before the failure is returned. -/
theorem batched_failure_partial_results_witness :
    run_batched_prompts demo_batch_call demo_pages "c" tok40k =
      ((run_batched_loop demo_batch_call [mkBatchPrompt "c" ""]).1, 2) ∧
    (run_batched_loop demo_batch_call [mkBatchPrompt "c" ""]).1.length = 1 :=
  batched_failure_partial_results demo_batch_call demo_pages "c" tok40k
    [mkBatchPrompt "c" ""] (mkBatchPrompt "c" "ab") [] "boom"
    rfl
    (by
      intro b hb
      rw [List.mem_singleton] at hb
      subst hb
      exact ⟨demo_insights, rfl⟩)
    rfl

/-! ### Escaping round-trip at the renderer boundary (claim C10) -/

set_option maxHeartbeats 1600000

/-- A character other than `&` at the head of the stream is passed through
verbatim by the re-parser. -/
theorem unescapeChars_cons_of_ne (c : Char) (l : List Char) (h : c ≠ '&') :
    unescapeChars (c :: l) = c :: unescapeChars l := by
  rw [unescapeChars.eq_def]
  split <;> simp_all

/-- The re-parser consumes one escaped character and continues. -/
theorem unescapeChars_escapeChar (c : Char) (rest : List Char) :
    unescapeChars (escapeChar c ++ rest) = c :: unescapeChars rest := by
  rw [escapeChar.eq_def]
  split
  · simp only [List.cons_append, List.nil_append]
    rw [unescapeChars]
  · simp only [List.cons_append, List.nil_append]
    rw [unescapeChars]
  · simp only [List.cons_append, List.nil_append]
    rw [unescapeChars]
  · simp only [List.cons_append, List.nil_append]
    rw [unescapeChars]
  · simp only [List.cons_append, List.nil_append]
    rw [unescapeChars]
  · rename_i hamp _ _ _ _
    simp only [List.cons_append, List.nil_append]
    exact unescapeChars_cons_of_ne c rest hamp

/-- Character-list escaping round-trip. -/
theorem unescapeChars_flatMap_escapeChar (l : List Char) :
    unescapeChars (l.flatMap escapeChar) = l := by
  induction l with
  | nil => rfl
  | cons c rest ih =>
    rw [List.flatMap_cons, unescapeChars_escapeChar, ih]

/-- String escaping round-trip: un-escaping the `html.escape`d text recovers
the original string byte-for-byte. -/
theorem html_unescape_escape (s : String) :
    html_unescape (html_escape s) = s := by
  obtain ⟨l⟩ := s
  show String.mk (unescapeChars ((String.mk l).data.flatMap escapeChar)) = String.mk l
  rw [show (String.mk l).data = l from rfl, unescapeChars_flatMap_escapeChar]

/-- C10: every quote field interpolated into the insights report
(`html_creation.py` lines 126-136 render each of text, context, position and
relation through `html.escape`, see `quote_box_html`) is recovered
byte-for-byte by un-escaping (re-parsing) the rendered field text. -/
theorem report_field_escaping_roundtrip (q : Quote) :
    html_unescape (html_escape q.text) = q.text ∧
    html_unescape (html_escape q.context) = q.context ∧
    html_unescape (html_escape q.position) = q.position ∧
    html_unescape (html_escape q.relation) = q.relation :=
  ⟨html_unescape_escape q.text, html_unescape_escape q.context,
   html_unescape_escape q.position, html_unescape_escape q.relation⟩
